import Mathlib

/-!
Verification of the WeatherGateway adapter (src/server.py).

The development shallowly embeds the three tool operations of the server
(get_current_weather, get_forecast, get_location) together with the shared
request primitive make_openmeteo_request.  JSON payloads are modelled by the
inductive type Json below; the behaviour of the Python json.dumps serializer
(default separators, and the indent-2 variant used for payload pass-through)
is modelled by the functions dumps and dumpsIndent2.  The outcome of the
single outbound HTTP request is an explicit input of each operation
(ReqResult), mirroring how the repository's own tests drive the operations by
patching make_openmeteo_request; an operation's result records both the
returned string and the list of URLs requested, so that claims of the form
"no network call is made" are statable.

Modelling notes, fixed once here:
* Python floats for coordinates are modelled as exact rationals; the textual
  rendering of a coordinate inside a URL (coordStr) stands in for Python's
  shortest round-trip float repr.  No claim inspects those characters.
* JSON numbers are modelled as signed decimal fixed-point values
  (mantissa and decimal-exponent), covering the integer and decimal literals
  produced by the upstream API; exponent-form floats are outside the model.
* Python string truthiness and dict truthiness (the `if not data` test of the
  source) are modelled by pyTruthy / pyFalsy.
-/

/-! ## JSON values -/

mutual
/-- A JSON value: null, boolean, decimal number (mantissa m and decimal
exponent e, denoting m / 10^e), string, array or object. -/
inductive Json where
  | null : Json
  | bool (b : Bool) : Json
  | num (m : ℤ) (e : ℕ) : Json
  | str (s : String) : Json
  | arr (xs : JArr) : Json
  | obj (ms : JObj) : Json
/-- A list of JSON array elements. -/
inductive JArr where
  | nil : JArr
  | cons (hd : Json) (tl : JArr) : JArr
/-- A list of JSON object members, each a key paired with a value. -/
inductive JObj where
  | nil : JObj
  | cons (key : String) (val : Json) (tl : JObj) : JObj
end

/-- Python truthiness of a decoded JSON value, as tested by `if not data` in
src/server.py lines 79, 127 and 159: None, False, zero, the empty string, the
empty array and the empty object are falsy; everything else is truthy. -/
def pyTruthy : Json → Bool
  | .null => false
  | .bool b => b
  | .num m _ => m != 0
  | .str s => !s.data.isEmpty
  | .arr .nil => false
  | .arr (.cons _ _) => true
  | .obj .nil => false
  | .obj (.cons _ _ _) => true

/-- Python truthiness of the Optional result of the request primitive:
`not data` holds when the primitive returned None or a falsy payload. -/
def pyFalsy : Option Json → Bool
  | none => true
  | some j => !pyTruthy j

/-! ## Decimal digit rendering (Python str of a nonnegative integer) -/

/-- The character for a single decimal digit. -/
def digitCh (d : ℕ) : Char := Char.ofNat (48 + d)

/-- Fuel-driven most-significant-first decimal digit expansion. -/
def natCharsAux : ℕ → ℕ → List Char
  | 0, _ => []
  | _ + 1, 0 => []
  | fuel + 1, n + 1 => natCharsAux fuel ((n + 1) / 10) ++ [digitCh ((n + 1) % 10)]

/-- Decimal digits of a natural number, most significant first, with no
leading zeros; 0 renders as the single digit 0.  Agrees with Python's str on
nonnegative integers. -/
def natChars (n : ℕ) : List Char := if n = 0 then ['0'] else natCharsAux (n + 1) n

/-- Digits of the absolute value m, with a decimal point inserted so that
exactly e digits follow it (padding with leading zeros as needed); with e = 0
no point is printed.  This is the decimal rendering json.dumps gives to the
numbers in the model. -/
def fracChars (n : ℕ) (e : ℕ) : List Char :=
  if e = 0 then natChars n
  else
    let ds := natChars n
    let padded := List.replicate (e + 1 - ds.length) '0' ++ ds
    padded.take (padded.length - e) ++ '.' :: padded.drop (padded.length - e)

/-- Rendering of a JSON number value m / 10^e: an optional minus sign
followed by the digits of the absolute value. -/
def numChars (m : ℤ) (e : ℕ) : List Char :=
  (if m < 0 then ['-'] else []) ++ fracChars m.natAbs e

/-! ## String escaping (json.dumps with its default ensure ascii policy) -/

/-- The character for a hexadecimal digit below 16, lowercase as produced by
Python's 04x formatting. -/
def hexCh (d : ℕ) : Char := if d < 10 then Char.ofNat (48 + d) else Char.ofNat (87 + d)

/-- Four lowercase hex digits of a code unit below 65536. -/
def hex4 (n : ℕ) : List Char :=
  [hexCh (n / 4096 % 16), hexCh (n / 256 % 16), hexCh (n / 16 % 16), hexCh (n % 16)]

/-- The escape of one character inside a JSON string literal, following the
CPython json encoder with its default ensure ascii policy: quote, backslash
and the named control characters get two-character escapes, other control
characters and all characters above 126 get u-escapes, astral characters get
a surrogate pair; the remaining printable ASCII characters stand for
themselves. -/
def escapeChar (c : Char) : List Char :=
  if c = '"' then ['\\', '"']
  else if c = '\\' then ['\\', '\\']
  else if c = '\n' then ['\\', 'n']
  else if c = '\r' then ['\\', 'r']
  else if c = '\t' then ['\\', 't']
  else if c = '\x08' then ['\\', 'b']
  else if c = '\x0c' then ['\\', 'f']
  else if c.toNat < 32 then '\\' :: 'u' :: hex4 c.toNat
  else if c.toNat < 127 then [c]
  else if c.toNat < 65536 then '\\' :: 'u' :: hex4 c.toNat
  else
    '\\' :: 'u' :: hex4 (55296 + (c.toNat - 65536) / 1024) ++
      '\\' :: 'u' :: hex4 (56320 + (c.toNat - 65536) % 1024)

/-- Escape every character of a string body. -/
def escChars : List Char → List Char
  | [] => []
  | c :: cs => escapeChar c ++ escChars cs

/-- A complete JSON string literal: opening quote, escaped body, closing
quote. -/
def strChars (s : String) : List Char := '"' :: (escChars s.data ++ ['"'])

/-! ## Serializers

serC mirrors json.dumps with its default separators (comma-space between
items, colon-space after keys); serI mirrors json.dumps with indent=2, whose
separators are comma followed by a newline and indentation, and colon-space
after keys.  These are the two calls the server makes (src/server.py lines
62, 80, 86 and corresponding lines of the other operations). -/

/-- Indentation for nesting depth d under indent=2: 2*d spaces. -/
def pad (d : ℕ) : List Char := List.replicate (2 * d) ' '

/-- The characters of the JSON literal word for null. -/
def nullChars : List Char := ['n', 'u', 'l', 'l']

/-- The characters of the JSON literal word for true. -/
def trueChars : List Char := ['t', 'r', 'u', 'e']

/-- The characters of the JSON literal word for false. -/
def falseChars : List Char := ['f', 'a', 'l', 's', 'e']

mutual
/-- Compact serialization of a JSON value (json.dumps defaults). -/
def serC : Json → List Char
  | .null => nullChars
  | .bool true => trueChars
  | .bool false => falseChars
  | .num m e => numChars m e
  | .str s => strChars s
  | .arr .nil => ['[', ']']
  | .arr (.cons hd tl) => '[' :: (serC hd ++ serCArr tl ++ [']'])
  | .obj .nil => ['{', '}']
  | .obj (.cons k v tl) => '{' :: (strChars k ++ ':' :: ' ' :: serC v ++ serCObj tl ++ ['}'])
/-- Compact serialization of the remaining array elements. -/
def serCArr : JArr → List Char
  | .nil => []
  | .cons hd tl => ',' :: ' ' :: (serC hd ++ serCArr tl)
/-- Compact serialization of the remaining object members. -/
def serCObj : JObj → List Char
  | .nil => []
  | .cons k v tl => ',' :: ' ' :: (strChars k ++ ':' :: ' ' :: serC v ++ serCObj tl)
end

mutual
/-- Indent-2 serialization of a JSON value at nesting depth d. -/
def serI : ℕ → Json → List Char
  | _, .null => nullChars
  | _, .bool true => trueChars
  | _, .bool false => falseChars
  | _, .num m e => numChars m e
  | _, .str s => strChars s
  | _, .arr .nil => ['[', ']']
  | d, .arr (.cons hd tl) =>
      '[' :: '\n' :: (pad (d + 1) ++ serI (d + 1) hd ++ serIArr (d + 1) tl ++
        '\n' :: (pad d ++ [']']))
  | _, .obj .nil => ['{', '}']
  | d, .obj (.cons k v tl) =>
      '{' :: '\n' :: (pad (d + 1) ++ strChars k ++ ':' :: ' ' :: serI (d + 1) v ++
        serIObj (d + 1) tl ++ '\n' :: (pad d ++ ['}']))
/-- Indent-2 serialization of the remaining array elements at depth d. -/
def serIArr : ℕ → JArr → List Char
  | _, .nil => []
  | d, .cons hd tl => ',' :: '\n' :: (pad d ++ serI d hd ++ serIArr d tl)
/-- Indent-2 serialization of the remaining object members at depth d. -/
def serIObj : ℕ → JObj → List Char
  | _, .nil => []
  | d, .cons k v tl =>
      ',' :: '\n' :: (pad d ++ strChars k ++ ':' :: ' ' :: serI d v ++ serIObj d tl)
end

/-- The Python expression json.dumps(j): compact serialization as a string. -/
def dumps (j : Json) : String := String.mk (serC j)

/-- The Python expression json.dumps(j, indent=2). -/
def dumpsIndent2 (j : Json) : String := String.mk (serI 0 j)

/-- Python str of a natural number. -/
def natStr (n : ℕ) : String := String.mk (natChars n)

/-! ## The server model (src/server.py) -/

/-- Constant from src/server.py line 13. -/
def OPENMETEO_API_BASE : String := "https://api.open-meteo.com/v1"

/-- Constant from src/server.py line 14. -/
def GEOCODING_API_BASE : String := "https://geocoding-api.open-meteo.com/v1"

/-- Constant from src/server.py line 15. -/
def USER_AGENT : String := "weather-app/1.0"

/-- Rendering of a coordinate inside an f-string URL.  Coordinates are exact
rationals in the model; this stands in for Python's float repr, and no claim
depends on the characters it produces. -/
def coordStr (q : ℚ) : String := toString q

/-- The fixed list of 15 current-weather variables, src/server.py
lines 66-71. -/
def currentParams : String :=
  "temperature_2m,is_day,showers,cloud_cover,wind_speed_10m,wind_direction_10m,pressure_msl,snowfall,precipitation,relative_humidity_2m,apparent_temperature,rain,weather_code,surface_pressure,wind_gusts_10m"

/-- The fixed list of 5 daily forecast variables, src/server.py
lines 115-118. -/
def dailyParams : String :=
  "temperature_2m_max,temperature_2m_min,precipitation_sum,wind_speed_10m_max,weather_code"

/-- The clamp applied to the days argument, src/server.py line 114:
forecast_days = min(max(days, 1), 16). -/
def clampForecastDays (days : ℤ) : ℤ := min (max days 1) 16

/-- The URL built by get_current_weather, src/server.py lines 72-75. -/
def currentWeatherUrl (latitude longitude : ℚ) : String :=
  OPENMETEO_API_BASE ++ "/forecast?latitude=" ++ coordStr latitude ++
    "&longitude=" ++ coordStr longitude ++ "&current=" ++ currentParams

/-- The URL built by get_forecast, src/server.py lines 119-123; the day count
in it is the clamped one, a nonnegative integer rendered in decimal. -/
def forecastUrl (latitude longitude : ℚ) (days : ℤ) : String :=
  OPENMETEO_API_BASE ++ "/forecast?latitude=" ++ coordStr latitude ++
    "&longitude=" ++ coordStr longitude ++ "&daily=" ++ dailyParams ++
    "&forecast_days=" ++ natStr (clampForecastDays days).toNat

/-- The URL built by get_location, src/server.py lines 152-155. -/
def geocodingUrl (name : String) : String :=
  GEOCODING_API_BASE ++ "/search?name=" ++ name ++ "&count=5&language=en&format=json"

/-- The one-key error envelope dict the server passes to json.dumps on every
failure path. -/
def errJson (msg : String) : Json :=
  Json.obj (JObj.cons ("error") (Json.str msg) JObj.nil)

/-- Behaviour of the patched request primitive as observed by an operation:
either it returns (None or a decoded payload), or it raises an exception
carrying a message.  This mirrors how the repository's tests drive the
operations (return_value vs side_effect). -/
inductive ReqResult where
  | ret (data : Option Json)
  | raises (msg : String)

/-- Result of one operation call: the returned string together with the list
of URLs passed to the request primitive during the call. -/
structure OpResult where
  output : String
  requests : List String
  deriving DecidableEq

/-- Embedding of get_current_weather, src/server.py lines 49-91: coordinate
validation, URL construction, one request, and mapping of the outcome to a
JSON string. -/
def get_current_weather (req : ReqResult) (latitude longitude : ℚ) : OpResult :=
  if ¬(-90 ≤ latitude ∧ latitude ≤ 90) then
    { output := dumps (errJson ("Latitude must be between -90 and 90")), requests := [] }
  else if ¬(-180 ≤ longitude ∧ longitude ≤ 180) then
    { output := dumps (errJson ("Longitude must be between -180 and 180")), requests := [] }
  else
    let url := currentWeatherUrl latitude longitude
    match req with
    | .raises msg =>
        { output := dumps (errJson ("Error fetching weather data: " ++ msg)),
          requests := [url] }
    | .ret data =>
        if pyFalsy data then
          { output := dumps (errJson ("Unable to fetch current weather data for this location.")),
            requests := [url] }
        else
          { output := dumpsIndent2 (data.getD Json.null), requests := [url] }

/-- Embedding of get_forecast, src/server.py lines 94-135: same coordinate
validation, clamping of the day count, URL construction, one request, and
mapping of the outcome to a JSON string. -/
def get_forecast (req : ReqResult) (latitude longitude : ℚ) (days : ℤ) : OpResult :=
  if ¬(-90 ≤ latitude ∧ latitude ≤ 90) then
    { output := dumps (errJson ("Latitude must be between -90 and 90")), requests := [] }
  else if ¬(-180 ≤ longitude ∧ longitude ≤ 180) then
    { output := dumps (errJson ("Longitude must be between -180 and 180")), requests := [] }
  else
    let url := forecastUrl latitude longitude days
    match req with
    | .raises msg =>
        { output := dumps (errJson ("Error fetching forecast data: " ++ msg)),
          requests := [url] }
    | .ret data =>
        if pyFalsy data then
          { output := dumps (errJson ("Unable to fetch forecast data for this location.")),
            requests := [url] }
        else
          { output := dumpsIndent2 (data.getD Json.null), requests := [url] }

/-- Python whitespace characters stripped by str.strip (ASCII range; exotic
Unicode whitespace is outside the model). -/
def pyIsSpace (c : Char) : Bool :=
  c.toNat = 32 || c.toNat = 9 || c.toNat = 10 || c.toNat = 13 || c.toNat = 11 || c.toNat = 12

/-- The test `not name.strip()` of src/server.py line 149: true exactly when
every character of the name is whitespace (in particular for the empty
string). -/
def stripEmpty (name : String) : Bool := name.data.all pyIsSpace

/-- Embedding of get_location, src/server.py lines 138-165: name validation,
URL construction (the name is interpolated verbatim), one request, and
mapping of the outcome to a JSON string. -/
def get_location (req : ReqResult) (name : String) : OpResult :=
  if stripEmpty name then
    { output := dumps (errJson ("Location name cannot be empty.")), requests := [] }
  else
    let url := geocodingUrl name
    match req with
    | .raises msg =>
        { output := dumps (errJson ("Error searching for location: " ++ msg)),
          requests := [url] }
    | .ret data =>
        if pyFalsy data then
          { output := dumps (errJson ("Unable to search for locations.")), requests := [url] }
        else
          { output := dumpsIndent2 (data.getD Json.null), requests := [url] }

/-- The possible outcomes of the outbound GET inside make_openmeteo_request,
one per handler arm of src/server.py lines 32-46: a 2xx response whose body
decodes to a payload; a timeout (httpx.TimeoutException); a non-2xx status
(httpx.HTTPStatusError raised by raise_for_status); a transport-level fault
(DNS, connection, TLS - caught by the generic Exception arm); or a JSON
decode failure of the body (also caught by the generic arm). -/
inductive NetOutcome where
  | success (body : Json)
  | timeout
  | statusError (code : ℕ)
  | transportFault (msg : String)
  | decodeFailure

/-- Embedding of make_openmeteo_request, src/server.py lines 21-46: the
decoded body on success, and None on every failure class; no exception
escapes, which the Option return type makes explicit. -/
def make_openmeteo_request : NetOutcome → Option Json
  | .success body => some body
  | .timeout => none
  | .statusError _ => none
  | .transportFault _ => none
  | .decodeFailure => none

/-- Whether a network outcome is one of the failure classes. -/
def NetOutcome.isFailure : NetOutcome → Bool
  | .success _ => false
  | .timeout => true
  | .statusError _ => true
  | .transportFault _ => true
  | .decodeFailure => true

/-! ## JSON grammar

An inductive sub-grammar of RFC 8259 JSON text: every list of characters
accepted below is a well-formed JSON value that a standard JSON parser
decodes successfully.  (It is a sub-grammar: exponent-form numbers and
whitespace positions the serializers never produce are omitted, which only
strengthens membership statements.) -/

/-- Insignificant whitespace characters of the JSON grammar. -/
abbrev wsChar (c : Char) : Prop := c = ' ' ∨ c = '\n' ∨ c = '\r' ∨ c = '\t'

/-- A run of insignificant whitespace. -/
abbrev WS (cs : List Char) : Prop := ∀ c ∈ cs, wsChar c

/-- A decimal digit character. -/
abbrev isDigitCh (c : Char) : Prop := 48 ≤ c.toNat ∧ c.toNat ≤ 57

/-- A hexadecimal digit character (either case). -/
abbrev isHexCh (c : Char) : Prop :=
  (48 ≤ c.toNat ∧ c.toNat ≤ 57) ∨ (97 ≤ c.toNat ∧ c.toNat ≤ 102) ∨
    (65 ≤ c.toNat ∧ c.toNat ≤ 70)

/-- The integer part of a JSON number: a single zero, or a leading digit
from 1 to 9 followed by digits. -/
inductive GInt : List Char → Prop where
  | zero : GInt ['0']
  | lead (c : Char) (cs : List Char) : 49 ≤ c.toNat → c.toNat ≤ 57 →
      (∀ d ∈ cs, isDigitCh d) → GInt (c :: cs)

/-- A JSON number without exponent: optionally signed integer part, with an
optional fraction of at least one digit. -/
inductive GNum : List Char → Prop where
  | int (ip : List Char) : GInt ip → GNum ip
  | negInt (ip : List Char) : GInt ip → GNum ('-' :: ip)
  | dec (ip fp : List Char) : GInt ip → fp ≠ [] → (∀ d ∈ fp, isDigitCh d) →
      GNum (ip ++ '.' :: fp)
  | negDec (ip fp : List Char) : GInt ip → fp ≠ [] → (∀ d ∈ fp, isDigitCh d) →
      GNum ('-' :: (ip ++ '.' :: fp))

/-- One lexical item inside a JSON string literal: an unescaped character
(anything but quote, backslash and controls), a two-character escape, or a
four-hex-digit u-escape. -/
inductive GStrItem : List Char → Prop where
  | plain (c : Char) : c ≠ '"' → c ≠ '\\' → 32 ≤ c.toNat → GStrItem [c]
  | esc (c : Char) :
      (c = '"' ∨ c = '\\' ∨ c = '/' ∨ c = 'b' ∨ c = 'f' ∨ c = 'n' ∨ c = 'r' ∨ c = 't') →
      GStrItem ['\\', c]
  | uesc (a b c d : Char) : isHexCh a → isHexCh b → isHexCh c → isHexCh d →
      GStrItem ['\\', 'u', a, b, c, d]

/-- The body of a JSON string literal: a sequence of lexical items. -/
inductive GStrBody : List Char → Prop where
  | nil : GStrBody []
  | cons (item rest : List Char) : GStrItem item → GStrBody rest → GStrBody (item ++ rest)

mutual
/-- A JSON value (without surrounding whitespace). -/
inductive GVal : List Char → Prop where
  | gnull : GVal nullChars
  | gtrue : GVal trueChars
  | gfalse : GVal falseChars
  | gnum (cs : List Char) : GNum cs → GVal cs
  | gstr (body : List Char) : GStrBody body → GVal ('"' :: (body ++ ['"']))
  | garrEmpty (w : List Char) : WS w → GVal ('[' :: (w ++ [']']))
  | garr (inner : List Char) : GElems inner → GVal ('[' :: (inner ++ [']']))
  | gobjEmpty (w : List Char) : WS w → GVal ('{' :: (w ++ ['}']))
  | gobj (inner : List Char) : GMembs inner → GVal ('{' :: (inner ++ ['}']))
/-- A nonempty comma-separated list of array elements, each value carrying
optional whitespace on both sides. -/
inductive GElems : List Char → Prop where
  | last (w1 v w2 : List Char) : WS w1 → GVal v → WS w2 → GElems (w1 ++ v ++ w2)
  | more (w1 v w2 rest : List Char) : WS w1 → GVal v → WS w2 → GElems rest →
      GElems (w1 ++ v ++ w2 ++ ',' :: rest)
/-- A nonempty comma-separated list of object members: each member is a
string key, a colon and a value, with optional whitespace between the
tokens. -/
inductive GMembs : List Char → Prop where
  | last (w1 k w2 w3 v w4 : List Char) : WS w1 → GStrBody k → WS w2 → WS w3 →
      GVal v → WS w4 →
      GMembs (w1 ++ '"' :: (k ++ '"' :: w2) ++ ':' :: w3 ++ v ++ w4)
  | more (w1 k w2 w3 v rest : List Char) : WS w1 → GStrBody k → WS w2 → WS w3 →
      GVal v → GMembs rest →
      GMembs (w1 ++ '"' :: (k ++ '"' :: w2) ++ ':' :: w3 ++ v ++ ',' :: rest)
end

/-- A string is valid JSON when its characters form a JSON value. -/
def ValidJson (s : String) : Prop := GVal s.data

/-! ## Serializer outputs conform to the grammar: numbers -/

theorem digitCh_isDigit : ∀ d, d < 10 → isDigitCh (digitCh d) := by decide

theorem digitCh_lead : ∀ d, d < 10 → 1 ≤ d →
    49 ≤ (digitCh d).toNat ∧ (digitCh d).toNat ≤ 57 := by decide

theorem natCharsAux_zero (fuel : ℕ) : natCharsAux fuel 0 = [] := by
  cases fuel <;> simp [natCharsAux]

theorem natCharsAux_digits : ∀ fuel n : ℕ, ∀ c ∈ natCharsAux fuel n, isDigitCh c := by
  intro fuel
  induction fuel with
  | zero => intro n c hc; simp [natCharsAux] at hc
  | succ f ih =>
    intro n c hc
    cases n with
    | zero => rw [natCharsAux_zero] at hc; simp at hc
    | succ m =>
      rw [natCharsAux] at hc
      rcases List.mem_append.mp hc with h | h
      · exact ih _ c h
      · simp only [List.mem_singleton] at h
        subst h
        exact digitCh_isDigit _ (Nat.mod_lt _ (by norm_num))

theorem natCharsAux_lead : ∀ fuel n : ℕ, n ≠ 0 → n ≤ fuel →
    ∃ c cs, natCharsAux fuel n = c :: cs ∧ 49 ≤ c.toNat ∧ c.toNat ≤ 57 := by
  intro fuel
  induction fuel with
  | zero => intro n h0 hle; omega
  | succ f ih =>
    intro n h0 hle
    cases n with
    | zero => omega
    | succ m =>
      rw [natCharsAux]
      by_cases hq : (m + 1) / 10 = 0
      · rw [hq, natCharsAux_zero]
        have hlt : m + 1 < 10 := by omega
        have hmod : (m + 1) % 10 = m + 1 := Nat.mod_eq_of_lt hlt
        have hb := digitCh_lead (m + 1) hlt (by omega)
        exact ⟨digitCh ((m + 1) % 10), [], by simp, by rw [hmod]; exact hb.1,
          by rw [hmod]; exact hb.2⟩
      · have hlt : (m + 1) / 10 < m + 1 := Nat.div_lt_self (Nat.succ_pos m) (by norm_num)
        obtain ⟨c, cs, heq, h1, h2⟩ := ih ((m + 1) / 10) hq (by omega)
        exact ⟨c, cs ++ [digitCh ((m + 1) % 10)], by rw [heq]; simp, h1, h2⟩

theorem natChars_lead (n : ℕ) (hn : n ≠ 0) :
    ∃ c cs, natChars n = c :: cs ∧ 49 ≤ c.toNat ∧ c.toNat ≤ 57 ∧
      ∀ d ∈ cs, isDigitCh d := by
  obtain ⟨c, cs, heq, h1, h2⟩ := natCharsAux_lead (n + 1) n hn (by omega)
  refine ⟨c, cs, by rw [natChars, if_neg hn]; exact heq, h1, h2, ?_⟩
  intro d hd
  exact natCharsAux_digits (n + 1) n d (heq ▸ List.mem_cons_of_mem c hd)

theorem natChars_digits (n : ℕ) : ∀ c ∈ natChars n, isDigitCh c := by
  intro c hc
  rw [natChars] at hc
  split at hc
  · simp only [List.mem_singleton] at hc; subst hc; decide
  · exact natCharsAux_digits _ _ c hc

theorem natChars_ne_nil (n : ℕ) : natChars n ≠ [] := by
  by_cases h : n = 0
  · subst h; simp [natChars]
  · obtain ⟨c, cs, heq, -, -, -⟩ := natChars_lead n h
    simp [heq]

theorem natChars_GInt (n : ℕ) : GInt (natChars n) := by
  by_cases h : n = 0
  · subst h
    have : natChars 0 = ['0'] := by simp [natChars]
    rw [this]
    exact GInt.zero
  · obtain ⟨c, cs, heq, h1, h2, h3⟩ := natChars_lead n h
    rw [heq]
    exact GInt.lead c cs h1 h2 h3

theorem fracChars_zero (n : ℕ) : fracChars n 0 = natChars n := by simp [fracChars]

theorem fracChars_dec (n e : ℕ) (he : e ≠ 0) :
    ∃ ip fp, fracChars n e = ip ++ '.' :: fp ∧ GInt ip ∧ fp ≠ [] ∧
      ∀ d ∈ fp, isDigitCh d := by
  rw [fracChars, if_neg he]
  set ds := natChars n with hds
  set padded := List.replicate (e + 1 - ds.length) '0' ++ ds with hpad
  have hdig : ∀ c ∈ padded, isDigitCh c := by
    intro c hc
    rcases List.mem_append.mp hc with h | h
    · rw [List.eq_of_mem_replicate h]; decide
    · exact natChars_digits n c h
  have hdsnn : ds ≠ [] := natChars_ne_nil n
  have hdslen : 1 ≤ ds.length := by
    cases hd : ds with
    | nil => exact absurd hd hdsnn
    | cons a l => simp [hd]
  have hlen : padded.length = (e + 1 - ds.length) + ds.length := by
    rw [hpad, List.length_append, List.length_replicate]
  refine ⟨padded.take (padded.length - e), padded.drop (padded.length - e), rfl, ?_, ?_, ?_⟩
  · by_cases hc : ds.length ≤ e
    · have h2 : e + 1 - ds.length = (e - ds.length) + 1 := by omega
      have hform : padded = '0' :: (List.replicate (e - ds.length) '0' ++ ds) := by
        rw [hpad, h2, List.replicate_succ, List.cons_append]
      have h1 : padded.length - e = 1 := by omega
      rw [h1, hform]
      have htake : List.take 1 ('0' :: (List.replicate (e - ds.length) '0' ++ ds)) = ['0'] := rfl
      rw [htake]
      exact GInt.zero
    · push_neg at hc
      have h0 : e + 1 - ds.length = 0 := by omega
      have hpe : padded = ds := by rw [hpad, h0, List.replicate_zero, List.nil_append]
      have hn : n ≠ 0 := by
        intro h
        rw [hds, h] at hc
        have : natChars 0 = ['0'] := by simp [natChars]
        rw [this] at hc
        simp at hc
        omega
      obtain ⟨c, cs, heq, hb1, hb2, hb3⟩ := natChars_lead n hn
      have hdse : ds.length = cs.length + 1 := by rw [hds, heq, List.length_cons]
      rw [hpe, hds, heq]
      have hlen2 : (c :: cs).length - e = (cs.length - e) + 1 := by
        rw [List.length_cons]
        omega
      rw [hlen2, List.take_succ_cons]
      exact GInt.lead c (cs.take (cs.length - e)) hb1 hb2
        (fun d hd => hb3 d (List.take_subset _ _ hd))
  · have hlfp : (padded.drop (padded.length - e)).length = e := by
      rw [List.length_drop]; omega
    intro h
    rw [h] at hlfp
    simp at hlfp
    omega
  · intro d hd
    exact hdig d (List.drop_subset _ _ hd)

theorem numChars_GNum (m : ℤ) (e : ℕ) : GNum (numChars m e) := by
  rw [numChars]
  by_cases hm : m < 0
  · rw [if_pos hm]
    by_cases he : e = 0
    · subst he
      rw [fracChars_zero]
      exact GNum.negInt _ (natChars_GInt _)
    · obtain ⟨ip, fp, heq, h1, h2, h3⟩ := fracChars_dec m.natAbs e he
      rw [heq]
      exact GNum.negDec ip fp h1 h2 h3
  · rw [if_neg hm, List.nil_append]
    by_cases he : e = 0
    · subst he
      rw [fracChars_zero]
      exact GNum.int _ (natChars_GInt _)
    · obtain ⟨ip, fp, heq, h1, h2, h3⟩ := fracChars_dec m.natAbs e he
      rw [heq]
      exact GNum.dec ip fp h1 h2 h3

/-! ## Serializer outputs conform to the grammar: strings and whitespace -/

theorem hexCh_isHex : ∀ d, d < 16 → isHexCh (hexCh d) := by decide

theorem hex4_isHex (n : ℕ) : ∀ c ∈ hex4 n, isHexCh c := by
  intro c hc
  simp only [hex4, List.mem_cons, List.mem_singleton, List.not_mem_nil, or_false] at hc
  rcases hc with h | h | h | h <;>
    (subst h; exact hexCh_isHex _ (Nat.mod_lt _ (by norm_num)))

theorem GStrBody_append {a b : List Char} (ha : GStrBody a) (hb : GStrBody b) :
    GStrBody (a ++ b) := by
  induction ha with
  | nil => simpa using hb
  | cons item rest hitem _ ih =>
    rw [List.append_assoc]
    exact GStrBody.cons item (rest ++ b) hitem ih

theorem GStrBody_single {item : List Char} (h : GStrItem item) : GStrBody item := by
  simpa using GStrBody.cons item [] h GStrBody.nil

set_option maxHeartbeats 3000000 in
theorem escapeChar_body (c : Char) : GStrBody (escapeChar c) := by
  rw [escapeChar]
  split_ifs with h1 h2 h3 h4 h5 h6 h7 h8 h9 h10
  · exact GStrBody_single (GStrItem.esc '"' (by decide))
  · exact GStrBody_single (GStrItem.esc '\\' (by decide))
  · exact GStrBody_single (GStrItem.esc 'n' (by decide))
  · exact GStrBody_single (GStrItem.esc 'r' (by decide))
  · exact GStrBody_single (GStrItem.esc 't' (by decide))
  · exact GStrBody_single (GStrItem.esc 'b' (by decide))
  · exact GStrBody_single (GStrItem.esc 'f' (by decide))
  · exact GStrBody_single (GStrItem.uesc _ _ _ _
      (hexCh_isHex _ (Nat.mod_lt _ (by norm_num))) (hexCh_isHex _ (Nat.mod_lt _ (by norm_num)))
      (hexCh_isHex _ (Nat.mod_lt _ (by norm_num))) (hexCh_isHex _ (Nat.mod_lt _ (by norm_num))))
  · exact GStrBody_single (GStrItem.plain c h1 h2 (by omega))
  · exact GStrBody_single (GStrItem.uesc _ _ _ _
      (hexCh_isHex _ (Nat.mod_lt _ (by norm_num))) (hexCh_isHex _ (Nat.mod_lt _ (by norm_num)))
      (hexCh_isHex _ (Nat.mod_lt _ (by norm_num))) (hexCh_isHex _ (Nat.mod_lt _ (by norm_num))))
  · exact GStrBody.cons ['\\', 'u', hexCh _, hexCh _, hexCh _, hexCh _] _
      (GStrItem.uesc _ _ _ _
        (hexCh_isHex _ (Nat.mod_lt _ (by norm_num))) (hexCh_isHex _ (Nat.mod_lt _ (by norm_num)))
        (hexCh_isHex _ (Nat.mod_lt _ (by norm_num))) (hexCh_isHex _ (Nat.mod_lt _ (by norm_num))))
      (GStrBody_single (GStrItem.uesc _ _ _ _
        (hexCh_isHex _ (Nat.mod_lt _ (by norm_num))) (hexCh_isHex _ (Nat.mod_lt _ (by norm_num)))
        (hexCh_isHex _ (Nat.mod_lt _ (by norm_num))) (hexCh_isHex _ (Nat.mod_lt _ (by norm_num)))))

theorem escChars_body (cs : List Char) : GStrBody (escChars cs) := by
  induction cs with
  | nil => exact GStrBody.nil
  | cons c cs ih =>
    rw [escChars]
    exact GStrBody_append (escapeChar_body c) ih

theorem strChars_GVal (s : String) : GVal (strChars s) := by
  rw [strChars]
  exact GVal.gstr _ (escChars_body s.data)

theorem WS_nil : WS ([] : List Char) := by intro c hc; simp at hc

theorem WS_pad (d : ℕ) : WS (pad d) := by
  intro c hc
  rw [pad] at hc
  rw [List.eq_of_mem_replicate hc]
  left
  rfl

theorem WS_nl_pad (d : ℕ) : WS ('\n' :: pad d) := by
  intro c hc
  rcases List.mem_cons.mp hc with h | h
  · subst h; right; left; rfl
  · exact WS_pad d c h

theorem WS_space : WS [' '] := by
  intro c hc
  simp only [List.mem_singleton] at hc
  subst hc
  left
  rfl

/-! ## Serializer outputs conform to the grammar: values -/

mutual
theorem serI_GVal (d : ℕ) (j : Json) : GVal (serI d j) := by
  cases j with
  | null => rw [serI]; exact GVal.gnull
  | bool b =>
      cases b with
      | true => rw [serI]; exact GVal.gtrue
      | false => rw [serI]; exact GVal.gfalse
  | num m e => rw [serI]; exact GVal.gnum _ (numChars_GNum m e)
  | str s => rw [serI]; exact strChars_GVal s
  | arr xs =>
      cases xs with
      | nil => rw [serI]; exact GVal.garrEmpty [] WS_nil
      | cons hd tl =>
          rw [serI]
          have h := serIArr_elems (d + 1) hd tl ('\n' :: pad (d + 1)) ('\n' :: pad d)
            (WS_nl_pad (d + 1)) (WS_nl_pad d)
          have hv := GVal.garr _ h
          simpa only [List.append_assoc, List.cons_append, List.nil_append,
            List.append_nil] using hv
  | obj ms =>
      cases ms with
      | nil => rw [serI]; exact GVal.gobjEmpty [] WS_nil
      | cons k v tl =>
          rw [serI]
          have h := serIObj_membs (d + 1) k v tl ('\n' :: pad (d + 1)) ('\n' :: pad d)
            (WS_nl_pad (d + 1)) (WS_nl_pad d)
          have hv := GVal.gobj _ h
          simpa only [strChars, List.append_assoc, List.cons_append, List.nil_append,
            List.append_nil] using hv
termination_by sizeOf j

theorem serIArr_elems (d : ℕ) (hd : Json) (tl : JArr) (w1 wend : List Char)
    (hw1 : WS w1) (hwend : WS wend) :
    GElems (w1 ++ serI d hd ++ serIArr d tl ++ wend) := by
  cases tl with
  | nil =>
      have h := GElems.last w1 (serI d hd) wend hw1 (serI_GVal d hd) hwend
      rw [serIArr]
      simpa only [List.append_assoc, List.cons_append, List.nil_append,
        List.append_nil] using h
  | cons hd2 tl2 =>
      have hrest := serIArr_elems d hd2 tl2 ('\n' :: pad d) wend (WS_nl_pad d) hwend
      have h := GElems.more w1 (serI d hd) [] _ hw1 (serI_GVal d hd) WS_nil hrest
      rw [serIArr]
      simpa only [List.append_assoc, List.cons_append, List.nil_append,
        List.append_nil] using h
termination_by 1 + sizeOf hd + sizeOf tl

theorem serIObj_membs (d : ℕ) (k : String) (v : Json) (tl : JObj) (w1 wend : List Char)
    (hw1 : WS w1) (hwend : WS wend) :
    GMembs (w1 ++ strChars k ++ ':' :: ' ' :: serI d v ++ serIObj d tl ++ wend) := by
  cases tl with
  | nil =>
      have h := GMembs.last w1 (escChars k.data) [] [' '] (serI d v) wend
        hw1 (escChars_body _) WS_nil WS_space (serI_GVal d v) hwend
      rw [serIObj]
      simpa only [strChars, List.append_assoc, List.cons_append, List.nil_append,
        List.append_nil] using h
  | cons k2 v2 tl2 =>
      have hrest := serIObj_membs d k2 v2 tl2 ('\n' :: pad d) wend (WS_nl_pad d) hwend
      have h := GMembs.more w1 (escChars k.data) [] [' '] (serI d v) _
        hw1 (escChars_body _) WS_nil WS_space (serI_GVal d v) hrest
      rw [serIObj]
      simpa only [strChars, List.append_assoc, List.cons_append, List.nil_append,
        List.append_nil] using h
termination_by 1 + sizeOf v + sizeOf tl
end

/-- Every string produced by json.dumps with indent=2 is valid JSON. -/
theorem dumpsIndent2_valid (j : Json) : ValidJson (dumpsIndent2 j) := serI_GVal 0 j

/-- Every error envelope the server produces via json.dumps is valid JSON. -/
theorem dumps_errJson_valid (msg : String) : ValidJson (dumps (errJson msg)) := by
  have hm := GMembs.last [] (escChars (("error").data)) [] [' '] (strChars msg) []
    WS_nil (escChars_body _) WS_nil WS_space (strChars_GVal msg) WS_nil
  have hv := GVal.gobj _ hm
  show GVal (serC (errJson msg))
  rw [errJson, serC, serCObj]
  simpa only [serC, strChars, List.append_assoc, List.cons_append, List.nil_append,
    List.append_nil] using hv

/-! ## Output shape of the three operations -/

/-- Every get_current_weather output is either a compact error envelope or an
indent-2 payload serialization. -/
theorem weather_output_shape (req : ReqResult) (lat lon : ℚ) :
    (∃ msg, (get_current_weather req lat lon).output = dumps (errJson msg)) ∨
    (∃ j, (get_current_weather req lat lon).output = dumpsIndent2 j) := by
  by_cases hlat : -90 ≤ lat ∧ lat ≤ 90
  · by_cases hlon : -180 ≤ lon ∧ lon ≤ 180
    · rw [get_current_weather, if_neg (not_not_intro hlat), if_neg (not_not_intro hlon)]
      cases req with
      | raises msg => exact Or.inl ⟨_, rfl⟩
      | ret data =>
          by_cases hf : pyFalsy data = true
          · refine Or.inl ⟨("Unable to fetch current weather data for this location."), ?_⟩
            simp [hf]
          · refine Or.inr ⟨data.getD Json.null, ?_⟩
            simp [hf]
    · rw [get_current_weather, if_neg (not_not_intro hlat), if_pos hlon]
      exact Or.inl ⟨_, rfl⟩
  · rw [get_current_weather, if_pos hlat]
    exact Or.inl ⟨_, rfl⟩

/-- Every get_forecast output is either a compact error envelope or an
indent-2 payload serialization. -/
theorem forecast_output_shape (req : ReqResult) (lat lon : ℚ) (days : ℤ) :
    (∃ msg, (get_forecast req lat lon days).output = dumps (errJson msg)) ∨
    (∃ j, (get_forecast req lat lon days).output = dumpsIndent2 j) := by
  by_cases hlat : -90 ≤ lat ∧ lat ≤ 90
  · by_cases hlon : -180 ≤ lon ∧ lon ≤ 180
    · rw [get_forecast, if_neg (not_not_intro hlat), if_neg (not_not_intro hlon)]
      cases req with
      | raises msg => exact Or.inl ⟨_, rfl⟩
      | ret data =>
          by_cases hf : pyFalsy data = true
          · refine Or.inl ⟨("Unable to fetch forecast data for this location."), ?_⟩
            simp [hf]
          · refine Or.inr ⟨data.getD Json.null, ?_⟩
            simp [hf]
    · rw [get_forecast, if_neg (not_not_intro hlat), if_pos hlon]
      exact Or.inl ⟨_, rfl⟩
  · rw [get_forecast, if_pos hlat]
    exact Or.inl ⟨_, rfl⟩

/-- Every get_location output is either a compact error envelope or an
indent-2 payload serialization. -/
theorem location_output_shape (req : ReqResult) (name : String) :
    (∃ msg, (get_location req name).output = dumps (errJson msg)) ∨
    (∃ j, (get_location req name).output = dumpsIndent2 j) := by
  by_cases hs : stripEmpty name = true
  · rw [get_location, if_pos hs]
    exact Or.inl ⟨_, rfl⟩
  · rw [get_location, if_neg hs]
    cases req with
    | raises msg => exact Or.inl ⟨_, rfl⟩
    | ret data =>
        by_cases hf : pyFalsy data = true
        · refine Or.inl ⟨("Unable to search for locations."), ?_⟩
          simp [hf]
        · refine Or.inr ⟨data.getD Json.null, ?_⟩
          simp [hf]

/-! ## Claims -/

/-- C8: for every input and every outcome of the request primitive (payload,
Absent, or raised fault), the string returned by each of the three operations
is valid JSON: it conforms to the JSON value grammar, so decoding it with a
standard JSON parser succeeds. -/
theorem C8_outputs_always_valid_json :
    (∀ req lat lon, ValidJson ((get_current_weather req lat lon).output)) ∧
    (∀ req lat lon days, ValidJson ((get_forecast req lat lon days).output)) ∧
    (∀ req name, ValidJson ((get_location req name).output)) := by
  refine ⟨fun req lat lon => ?_, fun req lat lon days => ?_, fun req name => ?_⟩
  · rcases weather_output_shape req lat lon with ⟨msg, h⟩ | ⟨j, h⟩
    · rw [h]; exact dumps_errJson_valid msg
    · rw [h]; exact dumpsIndent2_valid j
  · rcases forecast_output_shape req lat lon days with ⟨msg, h⟩ | ⟨j, h⟩
    · rw [h]; exact dumps_errJson_valid msg
    · rw [h]; exact dumpsIndent2_valid j
  · rcases location_output_shape req name with ⟨msg, h⟩ | ⟨j, h⟩
    · rw [h]; exact dumps_errJson_valid msg
    · rw [h]; exact dumpsIndent2_valid j

/-- C9: no call raises past the operation boundary.  The embedding makes the
request primitive's raising an explicit input (ReqResult.raises), and each
operation is a total function on it: on every input, including a raised
fault, the operation terminates and returns a string, namely either a
serialized error envelope or a serialized payload. -/
theorem C9_operations_always_return :
    (∀ req lat lon, (∃ msg, (get_current_weather req lat lon).output = dumps (errJson msg)) ∨
      (∃ j, (get_current_weather req lat lon).output = dumpsIndent2 j)) ∧
    (∀ req lat lon days, (∃ msg, (get_forecast req lat lon days).output = dumps (errJson msg)) ∨
      (∃ j, (get_forecast req lat lon days).output = dumpsIndent2 j)) ∧
    (∀ req name, (∃ msg, (get_location req name).output = dumps (errJson msg)) ∨
      (∃ j, (get_location req name).output = dumpsIndent2 j)) :=
  ⟨fun req lat lon => weather_output_shape req lat lon,
   fun req lat lon days => forecast_output_shape req lat lon days,
   fun req name => location_output_shape req name⟩

/-- C5: make_openmeteo_request never propagates a failure: every failure
class (timeout, non-2xx status, transport fault, decode failure) yields the
Absent marker None, and any two failures are observably identical to the
caller. -/
theorem C5_request_failures_collapse :
    (∀ o : NetOutcome, o.isFailure = true → make_openmeteo_request o = none) ∧
    (∀ o1 o2 : NetOutcome, o1.isFailure = true → o2.isFailure = true →
      make_openmeteo_request o1 = make_openmeteo_request o2) := by
  have habs : ∀ o : NetOutcome, o.isFailure = true → make_openmeteo_request o = none := by
    intro o ho
    cases o with
    | success body => simp [NetOutcome.isFailure] at ho
    | timeout => rfl
    | statusError code => rfl
    | transportFault msg => rfl
    | decodeFailure => rfl
  exact ⟨habs, fun o1 o2 h1 h2 => by rw [habs o1 h1, habs o2 h2]⟩

/-- Witness for C5 at two concrete failures: a timeout and a decode failure
both collapse to None. -/
theorem C5_witness :
    NetOutcome.timeout.isFailure = true ∧
    NetOutcome.decodeFailure.isFailure = true ∧
    make_openmeteo_request NetOutcome.timeout = none ∧
    make_openmeteo_request NetOutcome.timeout =
      make_openmeteo_request NetOutcome.decodeFailure :=
  ⟨by decide, by decide, C5_request_failures_collapse.1 NetOutcome.timeout (by decide),
   C5_request_failures_collapse.2 NetOutcome.timeout NetOutcome.decodeFailure
     (by decide) (by decide)⟩

/-- C6: for every name whose trimmed form is empty (empty or whitespace-only)
get_location returns the fixed empty-name envelope and makes no request,
whatever the request primitive would have done. -/
theorem C6_empty_location_name :
    ∀ req name, stripEmpty name = true →
      get_location req name =
        ⟨dumps (errJson ("Location name cannot be empty.")), []⟩ := by
  intro req name h
  rw [get_location, if_pos h]

/-- Witness for C6 at the whitespace-only name of three spaces. -/
theorem C6_witness :
    stripEmpty ("   ") = true ∧
    get_location (ReqResult.ret none) ("   ") =
      ⟨dumps (errJson ("Location name cannot be empty.")), []⟩ :=
  ⟨by decide, C6_empty_location_name (ReqResult.ret none) ("   ") (by decide)⟩

/-- C2: out-of-range latitude makes get_current_weather and get_forecast
return the fixed latitude envelope with no network call, whatever the request
primitive would do; with latitude in range, out-of-range longitude likewise
returns the fixed longitude envelope with no network call. -/
theorem C2_coordinate_validation :
    (∀ req lat lon, ¬(-90 ≤ lat ∧ lat ≤ 90) →
        get_current_weather req lat lon =
          ⟨dumps (errJson ("Latitude must be between -90 and 90")), []⟩) ∧
    (∀ req lat lon days, ¬(-90 ≤ lat ∧ lat ≤ 90) →
        get_forecast req lat lon days =
          ⟨dumps (errJson ("Latitude must be between -90 and 90")), []⟩) ∧
    (∀ req lat lon, -90 ≤ lat ∧ lat ≤ 90 → ¬(-180 ≤ lon ∧ lon ≤ 180) →
        get_current_weather req lat lon =
          ⟨dumps (errJson ("Longitude must be between -180 and 180")), []⟩) ∧
    (∀ req lat lon days, -90 ≤ lat ∧ lat ≤ 90 → ¬(-180 ≤ lon ∧ lon ≤ 180) →
        get_forecast req lat lon days =
          ⟨dumps (errJson ("Longitude must be between -180 and 180")), []⟩) := by
  refine ⟨fun req lat lon h => ?_, fun req lat lon days h => ?_,
    fun req lat lon hlat hlon => ?_, fun req lat lon days hlat hlon => ?_⟩
  · rw [get_current_weather, if_pos h]
  · rw [get_forecast, if_pos h]
  · rw [get_current_weather, if_neg (not_not_intro hlat), if_pos hlon]
  · rw [get_forecast, if_neg (not_not_intro hlat), if_pos hlon]

/-- Witness for C2 at latitude 91 (out of range) and at longitude 181 with
latitude 0 in range. -/
theorem C2_witness :
    ¬(-90 ≤ (91 : ℚ) ∧ (91 : ℚ) ≤ 90) ∧
    get_current_weather (ReqResult.ret none) 91 0 =
      ⟨dumps (errJson ("Latitude must be between -90 and 90")), []⟩ ∧
    (-90 ≤ (0 : ℚ) ∧ (0 : ℚ) ≤ 90) ∧
    ¬(-180 ≤ (181 : ℚ) ∧ (181 : ℚ) ≤ 180) ∧
    get_forecast (ReqResult.ret none) 0 181 7 =
      ⟨dumps (errJson ("Longitude must be between -180 and 180")), []⟩ :=
  ⟨by decide, C2_coordinate_validation.1 (ReqResult.ret none) 91 0 (by decide),
   by decide, by decide,
   C2_coordinate_validation.2.2.2 (ReqResult.ret none) 0 181 7 (by decide) (by decide)⟩

/-- C4: when the request primitive returns the Absent marker None, each
operation (on inputs that pass its validation) returns its fixed
operation-specific unable-to-fetch envelope. -/
theorem C4_absent_fixed_envelopes :
    (∀ lat lon, -90 ≤ lat ∧ lat ≤ 90 → -180 ≤ lon ∧ lon ≤ 180 →
        (get_current_weather (ReqResult.ret none) lat lon).output =
          dumps (errJson ("Unable to fetch current weather data for this location."))) ∧
    (∀ lat lon days, -90 ≤ lat ∧ lat ≤ 90 → -180 ≤ lon ∧ lon ≤ 180 →
        (get_forecast (ReqResult.ret none) lat lon days).output =
          dumps (errJson ("Unable to fetch forecast data for this location."))) ∧
    (∀ name, stripEmpty name = false →
        (get_location (ReqResult.ret none) name).output =
          dumps (errJson ("Unable to search for locations."))) := by
  refine ⟨fun lat lon hlat hlon => ?_, fun lat lon days hlat hlon => ?_, fun name hn => ?_⟩
  · rw [get_current_weather, if_neg (not_not_intro hlat), if_neg (not_not_intro hlon)]
    rfl
  · rw [get_forecast, if_neg (not_not_intro hlat), if_neg (not_not_intro hlon)]
    rfl
  · rw [get_location, if_neg (by simp [hn])]
    rfl

/-- Witness for C4 at coordinates 0, 0, a 7-day forecast and the name
Berlin. -/
theorem C4_witness :
    (-90 ≤ (0 : ℚ) ∧ (0 : ℚ) ≤ 90) ∧ (-180 ≤ (0 : ℚ) ∧ (0 : ℚ) ≤ 180) ∧
    (get_current_weather (ReqResult.ret none) 0 0).output =
      dumps (errJson ("Unable to fetch current weather data for this location.")) ∧
    (get_forecast (ReqResult.ret none) 0 0 7).output =
      dumps (errJson ("Unable to fetch forecast data for this location.")) ∧
    stripEmpty ("Berlin") = false ∧
    (get_location (ReqResult.ret none) ("Berlin")).output =
      dumps (errJson ("Unable to search for locations.")) :=
  ⟨by decide, by decide,
   C4_absent_fixed_envelopes.1 0 0 (by decide) (by decide),
   C4_absent_fixed_envelopes.2.1 0 0 7 (by decide) (by decide),
   by decide,
   C4_absent_fixed_envelopes.2.2 ("Berlin") (by decide)⟩

/-- C7: when the request primitive raises a fault synchronously, each
operation (on inputs that pass its validation) returns an envelope whose
message is the operation's fixed error text followed by the fault's
message. -/
theorem C7_raised_fault_envelopes :
    (∀ msg lat lon, -90 ≤ lat ∧ lat ≤ 90 → -180 ≤ lon ∧ lon ≤ 180 →
        (get_current_weather (ReqResult.raises msg) lat lon).output =
          dumps (errJson ("Error fetching weather data: " ++ msg))) ∧
    (∀ msg lat lon days, -90 ≤ lat ∧ lat ≤ 90 → -180 ≤ lon ∧ lon ≤ 180 →
        (get_forecast (ReqResult.raises msg) lat lon days).output =
          dumps (errJson ("Error fetching forecast data: " ++ msg))) ∧
    (∀ msg name, stripEmpty name = false →
        (get_location (ReqResult.raises msg) name).output =
          dumps (errJson ("Error searching for location: " ++ msg))) := by
  refine ⟨fun msg lat lon hlat hlon => ?_, fun msg lat lon days hlat hlon => ?_,
    fun msg name hn => ?_⟩
  · rw [get_current_weather, if_neg (not_not_intro hlat), if_neg (not_not_intro hlon)]
  · rw [get_forecast, if_neg (not_not_intro hlat), if_neg (not_not_intro hlon)]
  · rw [get_location, if_neg (by simp [hn])]

/-- Witness for C7 with the fault message boom at valid inputs. -/
theorem C7_witness :
    (-90 ≤ (0 : ℚ) ∧ (0 : ℚ) ≤ 90) ∧ (-180 ≤ (0 : ℚ) ∧ (0 : ℚ) ≤ 180) ∧
    (get_current_weather (ReqResult.raises ("boom")) 0 0).output =
      dumps (errJson ("Error fetching weather data: " ++ "boom")) ∧
    (get_forecast (ReqResult.raises ("boom")) 0 0 7).output =
      dumps (errJson ("Error fetching forecast data: " ++ "boom")) ∧
    stripEmpty ("Paris") = false ∧
    (get_location (ReqResult.raises ("boom")) ("Paris")).output =
      dumps (errJson ("Error searching for location: " ++ "boom")) :=
  ⟨by decide, by decide,
   C7_raised_fault_envelopes.1 ("boom") 0 0 (by decide) (by decide),
   C7_raised_fault_envelopes.2.1 ("boom") 0 0 7 (by decide) (by decide),
   by decide,
   C7_raised_fault_envelopes.2.2 ("boom") ("Paris") (by decide)⟩

/-- C3: get_forecast clamps the day count to the range 1 to 16 (values below
1 become 1, above 16 become 16, in-range values pass through unchanged), the
built URL ends with the forecast-days parameter set to the clamped value, the
request is issued for every day count (no error is signaled for out-of-range
input), and a truthy payload is passed through regardless of the day
count. -/
theorem C3_forecast_days_clamping :
    (∀ days : ℤ, (days < 1 → clampForecastDays days = 1) ∧
      (16 < days → clampForecastDays days = 16) ∧
      (1 ≤ days → days ≤ 16 → clampForecastDays days = days)) ∧
    (∀ lat lon days, ∃ p, forecastUrl lat lon days =
        p ++ ("&forecast_days=" ++ natStr (clampForecastDays days).toNat)) ∧
    (∀ req lat lon days, -90 ≤ lat ∧ lat ≤ 90 → -180 ≤ lon ∧ lon ≤ 180 →
        (get_forecast req lat lon days).requests = [forecastUrl lat lon days]) ∧
    (∀ j lat lon days, -90 ≤ lat ∧ lat ≤ 90 → -180 ≤ lon ∧ lon ≤ 180 →
        pyTruthy j = true →
        (get_forecast (ReqResult.ret (some j)) lat lon days).output = dumpsIndent2 j) := by
  refine ⟨fun days => ⟨fun h => ?_, fun h => ?_, fun h1 h2 => ?_⟩,
    fun lat lon days => ?_, fun req lat lon days hlat hlon => ?_,
    fun j lat lon days hlat hlon hj => ?_⟩
  · rw [clampForecastDays]; omega
  · rw [clampForecastDays]; omega
  · rw [clampForecastDays]; omega
  · refine ⟨OPENMETEO_API_BASE ++ "/forecast?latitude=" ++ coordStr lat ++ "&longitude=" ++
      coordStr lon ++ "&daily=" ++ dailyParams, ?_⟩
    rw [forecastUrl]
    simp [String.append_assoc]
  · rw [get_forecast, if_neg (not_not_intro hlat), if_neg (not_not_intro hlon)]
    cases req with
    | raises msg => rfl
    | ret data =>
        by_cases hf : pyFalsy data = true
        · simp [hf]
        · simp [hf]
  · rw [get_forecast, if_neg (not_not_intro hlat), if_neg (not_not_intro hlon)]
    have hf : pyFalsy (some j) = false := by simp [pyFalsy, hj]
    simp [hf]

/-- Witness for C3 at day counts 20, 0 and 5, and at the concrete truthy
payload with one member. -/
theorem C3_witness :
    (16 < (20 : ℤ) ∧ clampForecastDays 20 = 16) ∧
    ((0 : ℤ) < 1 ∧ clampForecastDays 0 = 1) ∧
    (1 ≤ (5 : ℤ) ∧ (5 : ℤ) ≤ 16 ∧ clampForecastDays 5 = 5) ∧
    natStr (clampForecastDays 20).toNat = ("16") ∧
    (∃ p, forecastUrl 0 0 20 =
      p ++ ("&forecast_days=" ++ natStr (clampForecastDays 20).toNat)) ∧
    (-90 ≤ (0 : ℚ) ∧ (0 : ℚ) ≤ 90) ∧ (-180 ≤ (0 : ℚ) ∧ (0 : ℚ) ≤ 180) ∧
    (get_forecast (ReqResult.ret none) 0 0 20).requests = [forecastUrl 0 0 20] ∧
    pyTruthy (Json.obj (JObj.cons ("a") Json.null JObj.nil)) = true ∧
    (get_forecast (ReqResult.ret (some (Json.obj (JObj.cons ("a") Json.null JObj.nil))))
        0 0 20).output = dumpsIndent2 (Json.obj (JObj.cons ("a") Json.null JObj.nil)) :=
  ⟨⟨by decide, (C3_forecast_days_clamping.1 20).2.1 (by decide)⟩,
   ⟨by decide, (C3_forecast_days_clamping.1 0).1 (by decide)⟩,
   ⟨by decide, by decide, (C3_forecast_days_clamping.1 5).2.2 (by decide) (by decide)⟩,
   by decide,
   C3_forecast_days_clamping.2.1 0 0 20,
   by decide, by decide,
   C3_forecast_days_clamping.2.2.1 (ReqResult.ret none) 0 0 20 (by decide) (by decide),
   by decide,
   C3_forecast_days_clamping.2.2.2 (Json.obj (JObj.cons ("a") Json.null JObj.nil))
     0 0 20 (by decide) (by decide) (by decide)⟩

/-- C1 (counterexample): the empty object is a payload the request primitive
can return, yet get_current_weather does not return it re-serialized: the
falsy-payload test sends it down the unable-to-fetch path instead. -/
theorem C1_counterexample :
    (get_current_weather (ReqResult.ret (some (Json.obj JObj.nil))) 0 0).output ≠
      dumpsIndent2 (Json.obj JObj.nil) := by decide

/-- C1 (amended): for every truthy (non-empty) payload returned by the
request primitive, each operation (on inputs passing validation) returns that
exact payload re-serialized as a JSON string with 2-space indentation, with
no fields added, removed, or changed; falsy payloads such as the empty object
are instead treated like the Absent marker. -/
theorem C1_truthy_payload_passthrough :
    (∀ j lat lon, -90 ≤ lat ∧ lat ≤ 90 → -180 ≤ lon ∧ lon ≤ 180 →
        pyTruthy j = true →
        (get_current_weather (ReqResult.ret (some j)) lat lon).output = dumpsIndent2 j) ∧
    (∀ j lat lon days, -90 ≤ lat ∧ lat ≤ 90 → -180 ≤ lon ∧ lon ≤ 180 →
        pyTruthy j = true →
        (get_forecast (ReqResult.ret (some j)) lat lon days).output = dumpsIndent2 j) ∧
    (∀ j name, stripEmpty name = false → pyTruthy j = true →
        (get_location (ReqResult.ret (some j)) name).output = dumpsIndent2 j) := by
  refine ⟨fun j lat lon hlat hlon hj => ?_, fun j lat lon days hlat hlon hj => ?_,
    fun j name hn hj => ?_⟩
  · rw [get_current_weather, if_neg (not_not_intro hlat), if_neg (not_not_intro hlon)]
    have hf : pyFalsy (some j) = false := by simp [pyFalsy, hj]
    simp [hf]
  · rw [get_forecast, if_neg (not_not_intro hlat), if_neg (not_not_intro hlon)]
    have hf : pyFalsy (some j) = false := by simp [pyFalsy, hj]
    simp [hf]
  · rw [get_location, if_neg (by simp [hn])]
    have hf : pyFalsy (some j) = false := by simp [pyFalsy, hj]
    simp [hf]

/-- Witness for the amended C1 at a one-member payload mirroring the
repository's own test mock. -/
theorem C1_witness :
    (-90 ≤ (0 : ℚ) ∧ (0 : ℚ) ≤ 90) ∧ (-180 ≤ (0 : ℚ) ∧ (0 : ℚ) ≤ 180) ∧
    pyTruthy (Json.obj (JObj.cons ("current") (Json.num 205 1) JObj.nil)) = true ∧
    (get_current_weather
        (ReqResult.ret (some (Json.obj (JObj.cons ("current") (Json.num 205 1) JObj.nil))))
        0 0).output =
      dumpsIndent2 (Json.obj (JObj.cons ("current") (Json.num 205 1) JObj.nil)) ∧
    stripEmpty ("New York") = false ∧
    (get_location
        (ReqResult.ret (some (Json.obj (JObj.cons ("current") (Json.num 205 1) JObj.nil))))
        ("New York")).output =
      dumpsIndent2 (Json.obj (JObj.cons ("current") (Json.num 205 1) JObj.nil)) :=
  ⟨by decide, by decide, by decide,
   C1_truthy_payload_passthrough.1 (Json.obj (JObj.cons ("current") (Json.num 205 1) JObj.nil))
     0 0 (by decide) (by decide) (by decide),
   by decide,
   C1_truthy_payload_passthrough.2.2 (Json.obj (JObj.cons ("current") (Json.num 205 1) JObj.nil))
     ("New York") (by decide) (by decide)⟩

/-- C10: a falsy payload, such as the empty object, is treated identically to
the Absent marker by every operation, which returns its fixed
unable-to-fetch envelope instead of re-serializing the payload. -/
theorem C10_falsy_payload_like_absent :
    ∀ j : Json, pyTruthy j = false →
      (∀ lat lon, get_current_weather (ReqResult.ret (some j)) lat lon =
          get_current_weather (ReqResult.ret none) lat lon) ∧
      (∀ lat lon days, get_forecast (ReqResult.ret (some j)) lat lon days =
          get_forecast (ReqResult.ret none) lat lon days) ∧
      (∀ name, get_location (ReqResult.ret (some j)) name =
          get_location (ReqResult.ret none) name) ∧
      (∀ lat lon, -90 ≤ lat ∧ lat ≤ 90 → -180 ≤ lon ∧ lon ≤ 180 →
          (get_current_weather (ReqResult.ret (some j)) lat lon).output =
            dumps (errJson ("Unable to fetch current weather data for this location."))) ∧
      (∀ lat lon days, -90 ≤ lat ∧ lat ≤ 90 → -180 ≤ lon ∧ lon ≤ 180 →
          (get_forecast (ReqResult.ret (some j)) lat lon days).output =
            dumps (errJson ("Unable to fetch forecast data for this location."))) ∧
      (∀ name, stripEmpty name = false →
          (get_location (ReqResult.ret (some j)) name).output =
            dumps (errJson ("Unable to search for locations."))) := by
  intro j hj
  have hf : pyFalsy (some j) = true := by simp [pyFalsy, hj]
  refine ⟨fun lat lon => ?_, fun lat lon days => ?_, fun name => ?_,
    fun lat lon hlat hlon => ?_, fun lat lon days hlat hlon => ?_, fun name hn => ?_⟩
  · simp [get_current_weather, pyFalsy, hj]
  · simp [get_forecast, pyFalsy, hj]
  · simp [get_location, pyFalsy, hj]
  · rw [get_current_weather, if_neg (not_not_intro hlat), if_neg (not_not_intro hlon)]
    simp [hf]
  · rw [get_forecast, if_neg (not_not_intro hlat), if_neg (not_not_intro hlon)]
    simp [hf]
  · rw [get_location, if_neg (by simp [hn])]
    simp [hf]

/-- Witness for C10 at the empty object payload. -/
theorem C10_witness :
    pyTruthy (Json.obj JObj.nil) = false ∧
    get_current_weather (ReqResult.ret (some (Json.obj JObj.nil))) 0 0 =
      get_current_weather (ReqResult.ret none) 0 0 ∧
    (-90 ≤ (0 : ℚ) ∧ (0 : ℚ) ≤ 90) ∧ (-180 ≤ (0 : ℚ) ∧ (0 : ℚ) ≤ 180) ∧
    (get_forecast (ReqResult.ret (some (Json.obj JObj.nil))) 0 0 7).output =
      dumps (errJson ("Unable to fetch forecast data for this location.")) ∧
    stripEmpty ("Paris") = false ∧
    (get_location (ReqResult.ret (some (Json.obj JObj.nil))) ("Paris")).output =
      dumps (errJson ("Unable to search for locations.")) :=
  ⟨by decide,
   (C10_falsy_payload_like_absent (Json.obj JObj.nil) (by decide)).1 0 0,
   by decide, by decide,
   (C10_falsy_payload_like_absent (Json.obj JObj.nil) (by decide)).2.2.2.2.1 0 0 7
     (by decide) (by decide),
   by decide,
   (C10_falsy_payload_like_absent (Json.obj JObj.nil) (by decide)).2.2.2.2.2 ("Paris")
     (by decide)⟩
